import Mathlib

/-!
Verification of the GovtSchemesAI matching and scoring pipeline.

Shallow embedding of `src/backend/scoring.py` (ScoringEngine) and
`src/backend/matching_engine.py` (MatchingEngine).  Python dicts for user
profiles and eligibility rules are modelled as structures of `Option`-typed
fields (`none` = key absent); Python floats are modelled as exact rationals;
Python `int()` truncation, `round()` banker's rounding and `round(x, 2)` are
modelled explicitly.  Purely presentational data (detail strings, notes,
log messages) and advisory analytics counters are omitted; every value that
feeds back into a score, a filter decision, a cache key or a returned record
is modelled.
-/

set_option maxHeartbeats 1000000

namespace Govt

/-! ### Python-style primitives -/

/-- Python `str.lower` restricted to ASCII (all data handled by the engine
    is ASCII). -/
def lowerChar (c : Char) : Char :=
  if 65 ≤ c.toNat ∧ c.toNat ≤ 90 then Char.ofNat (c.toNat + 32) else c

def lowerStr (s : String) : String := ⟨s.data.map lowerChar⟩

def isSpaceChar (c : Char) : Bool := c = ' ' ∨ c = '\t' ∨ c = '\n' ∨ c = '\r'

/-- Python `str.strip`. -/
def stripStr (s : String) : String :=
  ⟨((s.data.dropWhile isSpaceChar).reverse.dropWhile isSpaceChar).reverse⟩

/-- Python `a in b` on strings (substring test). -/
def subStr (a b : String) : Bool := (b.data.tails).any (fun t => a.data.isPrefixOf t)

/-- Python `int()` applied to a float: truncation toward zero. -/
def pyInt (q : ℚ) : ℤ := if 0 ≤ q then ⌊q⌋ else ⌈q⌉

/-- Python `round()`: round half to even. -/
def roundHalfEven (q : ℚ) : ℤ :=
  let f := ⌊q⌋
  let r := q - f
  if r < 1/2 then f else if 1/2 < r then f + 1 else if f % 2 = 0 then f else f + 1

/-- Python `round(x, 2)`. -/
def round2 (q : ℚ) : ℚ := (roundHalfEven (q * 100) : ℚ) / 100

/-- `_safe_int` on an optional field (`user.get(k, 0)` fed to `_safe_int`). -/
def safeInt (v : Option ℤ) : ℤ := v.getD 0

/-- Python `v or d` for an optional integer argument: `None` and `0` are
    falsy and give the default. -/
def pyOrInt (v : Option ℤ) (d : ℤ) : ℤ :=
  match v with
  | none => d
  | some n => if n = 0 then d else n

/-- Python `l[:n]` (for possibly negative `n`). -/
def pySlice {α : Type} (l : List α) (n : ℤ) : List α :=
  if 0 ≤ n then l.take n.toNat else l.take (l.length - (-n).toNat)

/-- Lookup in a Python dict modelled as an association list. -/
def assocLookup {β : Type} (l : List (String × β)) (k : String) : Option β :=
  (l.find? (fun p => p.1 = k)).map (·.2)

/-- `d[k] = v` on a Python dict modelled as an association list. -/
def assocUpdate {β : Type} (l : List (String × β)) (k : String) (v : β) :
    List (String × β) :=
  if l.any (fun p => p.1 = k) then
    l.map (fun p => if p.1 = k then (k, v) else p)
  else l ++ [(k, v)]

/-! ### Data model -/

/-- The `states` field of an eligibility rule is either a plain string
    (usually `'all'`) or a list of state names. -/
inductive StatesReq : Type where
  | strVal (s : String)
  | listVal (l : List String)
deriving DecidableEq

/-- An eligibility rule (`scheme['eligibility']`): every field is
    independently optional, `none` meaning the key is absent. -/
structure Eligibility : Type where
  min_age : Option ℤ := none
  max_age : Option ℤ := none
  gender : Option String := none
  states : Option StatesReq := none
  category : Option (List String) := none
  max_income : Option ℤ := none
  occupation : Option (List String) := none
  is_bpl : Option Bool := none
  is_farmer : Option Bool := none
  is_student : Option Bool := none
  disability : Option Bool := none
deriving DecidableEq

/-- A user profile dict; `none` meaning the key is absent. -/
structure UserProfile : Type where
  age : Option ℤ := none
  gender : Option String := none
  state : Option String := none
  category : Option String := none
  annual_income : Option ℤ := none
  occupation : Option String := none
  is_bpl : Option Bool := none
  is_farmer : Option Bool := none
  is_student : Option Bool := none
  disability : Option Bool := none
deriving DecidableEq

/-- A scheme record as consumed by the matching engine. -/
structure Scheme : Type where
  id : Option String := none
  name : Option String := none
  description : Option String := none
  url : Option String := none
  category : Option String := none
  schemeType : Option String := none
  eligibility : Eligibility := {}
deriving DecidableEq

/-! ### Weight profiles (`WeightProfile` in scoring.py) -/

structure Weights : Type where
  age : ℚ
  gender : ℚ
  state : ℚ
  category : ℚ
  income : ℚ
  occupation : ℚ
  special : ℚ
deriving DecidableEq

def Weights.balanced : Weights := ⟨15, 15, 20, 15, 15, 10, 10⟩
def Weights.locationPriority : Weights := ⟨10, 10, 30, 15, 15, 10, 10⟩
def Weights.economicPriority : Weights := ⟨10, 10, 15, 15, 25, 10, 15⟩
def Weights.demographicPriority : Weights := ⟨20, 20, 15, 20, 10, 5, 10⟩
def Weights.occupationPriority : Weights := ⟨10, 10, 15, 10, 15, 25, 15⟩

/-- All weights of a profile are nonnegative (true of every preset). -/
def Weights.Nonneg (w : Weights) : Prop :=
  0 ≤ w.age ∧ 0 ≤ w.gender ∧ 0 ≤ w.state ∧ 0 ≤ w.category ∧
  0 ≤ w.income ∧ 0 ≤ w.occupation ∧ 0 ≤ w.special

/-- Constructor-time configuration of `ScoringEngine`. -/
structure ScoringConfig : Type where
  weights : Weights
  enableGradient : Bool
deriving DecidableEq

/-- `ScoringEngine()` as constructed by the matching engine:
    balanced weights, gradient scoring enabled. -/
def defaultScoringConfig : ScoringConfig := ⟨Weights.balanced, true⟩

/-! ### Static relation tables (scoring.py) -/

def stateNeighborsTable : List (String × List String) :=
  [("Delhi", ["Haryana", "Uttar Pradesh"]),
   ("Haryana", ["Delhi", "Punjab", "Rajasthan", "Uttar Pradesh", "Himachal Pradesh"]),
   ("Punjab", ["Haryana", "Himachal Pradesh", "Rajasthan", "Jammu and Kashmir", "Chandigarh"]),
   ("Uttar Pradesh", ["Delhi", "Haryana", "Rajasthan", "Madhya Pradesh", "Bihar",
                      "Jharkhand", "Chhattisgarh", "Uttarakhand"]),
   ("Bihar", ["Uttar Pradesh", "Jharkhand", "West Bengal"]),
   ("West Bengal", ["Bihar", "Jharkhand", "Odisha", "Sikkim", "Assam"]),
   ("Maharashtra", ["Gujarat", "Madhya Pradesh", "Chhattisgarh", "Telangana",
                    "Karnataka", "Goa"]),
   ("Karnataka", ["Maharashtra", "Goa", "Kerala", "Tamil Nadu", "Telangana",
                  "Andhra Pradesh"]),
   ("Tamil Nadu", ["Karnataka", "Kerala", "Andhra Pradesh", "Puducherry"]),
   ("Kerala", ["Karnataka", "Tamil Nadu"]),
   ("Gujarat", ["Maharashtra", "Rajasthan", "Madhya Pradesh"]),
   ("Rajasthan", ["Gujarat", "Maharashtra", "Madhya Pradesh", "Uttar Pradesh",
                  "Haryana", "Punjab"]),
   ("Madhya Pradesh", ["Rajasthan", "Gujarat", "Maharashtra", "Chhattisgarh",
                       "Uttar Pradesh"]),
   ("Andhra Pradesh", ["Telangana", "Karnataka", "Tamil Nadu", "Odisha",
                       "Chhattisgarh"]),
   ("Telangana", ["Andhra Pradesh", "Maharashtra", "Karnataka", "Chhattisgarh"]),
   ("Odisha", ["West Bengal", "Jharkhand", "Chhattisgarh", "Andhra Pradesh"]),
   ("Jharkhand", ["Bihar", "West Bengal", "Odisha", "Chhattisgarh", "Uttar Pradesh"]),
   ("Chhattisgarh", ["Madhya Pradesh", "Maharashtra", "Telangana", "Andhra Pradesh",
                     "Odisha", "Jharkhand", "Uttar Pradesh"]),
   ("Assam", ["West Bengal", "Meghalaya", "Nagaland", "Manipur", "Mizoram",
              "Tripura", "Arunachal Pradesh"]),
   ("Himachal Pradesh", ["Punjab", "Haryana", "Uttarakhand", "Jammu and Kashmir"]),
   ("Uttarakhand", ["Uttar Pradesh", "Himachal Pradesh"]),
   ("Goa", ["Maharashtra", "Karnataka"]),
   ("Sikkim", ["West Bengal"]),
   ("Meghalaya", ["Assam"]),
   ("Nagaland", ["Assam", "Manipur", "Arunachal Pradesh"]),
   ("Manipur", ["Assam", "Nagaland", "Mizoram"]),
   ("Mizoram", ["Assam", "Manipur", "Tripura"]),
   ("Tripura", ["Assam", "Mizoram"]),
   ("Arunachal Pradesh", ["Assam", "Nagaland"])]

def stateNeighbors (s : String) : List String := (assocLookup stateNeighborsTable s).getD []

/-- `_check_state_proximity`. -/
def checkStateProximity (userState : String) (eligibleStates : List String) : ℚ :=
  if (stateNeighbors userState).any (fun n => n ∈ eligibleStates) then 2/10 else 0

def relatedCategoriesTable : List (String × List String) :=
  [("sc", ["st", "obc"]), ("st", ["sc", "obc"]), ("obc", ["sc", "st"]),
   ("general", []), ("minority", ["obc"])]

def relatedCategories (c : String) : List String := (assocLookup relatedCategoriesTable c).getD []

/-- `_check_category_relation`. -/
def checkCategoryRelation (userCat : String) (eligibleCats : List String) : ℚ :=
  if (relatedCategories userCat).any (fun r => r ∈ eligibleCats) then 15/100 else 0

def relatedOccupationsTable : List (String × List String) :=
  [("farmer", ["agriculture", "farm worker", "fisherman", "dairy farmer"]),
   ("student", ["researcher", "scholar"]),
   ("business", ["entrepreneur", "self-employed", "trader", "shopkeeper"]),
   ("labour", ["worker", "construction", "daily wage", "factory worker"]),
   ("unemployed", ["job seeker", "fresh graduate"]),
   ("housewife", ["homemaker", "self-help group"]),
   ("teacher", ["educator", "professor", "lecturer"]),
   ("doctor", ["medical professional", "health worker"]),
   ("artisan", ["craftsman", "weaver", "potter", "handicraft"])]

def relatedOccupations (o : String) : List String :=
  (assocLookup relatedOccupationsTable o).getD []

/-- `_check_occupation_relation`: alias table, reverse alias table,
    then substring overlap. -/
def checkOccupationRelation (userOcc : String) (eligibleOccs : List String) : ℚ :=
  if (relatedOccupations userOcc).any (fun r => r ∈ eligibleOccs) then 1/2
  else if eligibleOccs.any (fun e => userOcc ∈ relatedOccupations e) then 1/2
  else if eligibleOccs.any (fun e => subStr userOcc e || subStr e userOcc) then 3/10
  else 0

/-! ### Per-dimension scorers

Each `_score_*` method of `ScoringEngine` calls `breakdown.add_field`
exactly once on every control path; it is therefore embedded as a function
returning the single `(earned, applicable, gradient)` contribution. -/

structure Contrib : Type where
  earned : ℚ
  applicable : ℚ
  gradient : ℚ
deriving DecidableEq

/-- `_score_age`. -/
def ageContrib (cfg : ScoringConfig) (user : UserProfile) (elig : Eligibility) : Contrib :=
  if elig.min_age = none ∧ elig.max_age = none then ⟨0, 0, 1⟩
  else
    let userAge := safeInt user.age
    let w := cfg.weights.age
    if userAge ≤ 0 then ⟨0, w, 0⟩
    else
      let below : Bool := match elig.min_age with
        | some m => decide (userAge < m)
        | none => false
      let above : Bool := match elig.max_age with
        | some m => decide (m < userAge)
        | none => false
      if below = false ∧ above = false then
        match cfg.enableGradient, elig.min_age, elig.max_age with
        | true, some mn, some mx =>
          let span : ℚ := (mx : ℚ) - (mn : ℚ)
          if 0 < span then
            let mid : ℚ := ((mn : ℚ) + (mx : ℚ)) / 2
            let dist : ℚ := |(userAge : ℚ) - mid| / (span / 2)
            let g : ℚ := max (8/10) (1 - dist * (2/10))
            ⟨w * g, w, g⟩
          else ⟨w, w, 1⟩
        | _, _, _ => ⟨w, w, 1⟩
      else
        if cfg.enableGradient then
          let dist : ℤ :=
            if below then (elig.min_age.getD 0) - userAge
            else userAge - (elig.max_age.getD 0)
          if dist ≤ 5 then
            let g : ℚ := max 0 (1 - ((dist : ℚ) / 5) * (8/10))
            ⟨w * g, w, g⟩
          else ⟨0, w, 0⟩
        else ⟨0, w, 0⟩

/-- `_score_gender`. -/
def genderContrib (cfg : ScoringConfig) (user : UserProfile) (elig : Eligibility) : Contrib :=
  let req := elig.gender.getD "all"
  if req = "all" then ⟨0, 0, 1⟩
  else
    let w := cfg.weights.gender
    let ug := stripStr (lowerStr (user.gender.getD ""))
    if ug = "" then ⟨0, w, 0⟩
    else if ug = lowerStr req then ⟨w, w, 1⟩
    else ⟨0, w, 0⟩

/-- `_score_state`. -/
def stateContrib (cfg : ScoringConfig) (user : UserProfile) (elig : Eligibility) : Contrib :=
  let sv := elig.states.getD (.strVal "all")
  let w := cfg.weights.state
  let us := stripStr (user.state.getD "")
  if sv = .strVal "all" then ⟨w, w, 1⟩
  else if us = "" then ⟨0, w, 0⟩
  else
    let eligibleStates := match sv with
      | .listVal l => l
      | .strVal s => [s]
    if us ∈ eligibleStates then ⟨w, w, 1⟩
    else if cfg.enableGradient then
      let prox := checkStateProximity us eligibleStates
      if 0 < prox then ⟨w * prox, w, prox⟩ else ⟨0, w, 0⟩
    else ⟨0, w, 0⟩

/-- `_score_category`. -/
def categoryContrib (cfg : ScoringConfig) (user : UserProfile) (elig : Eligibility) : Contrib :=
  let cats := elig.category.getD []
  if cats = [] then ⟨0, 0, 1⟩
  else
    let w := cfg.weights.category
    let uc := stripStr (lowerStr (user.category.getD ""))
    if uc = "" then ⟨0, w, 0⟩
    else
      let ec := cats.map lowerStr
      if uc ∈ ec then ⟨w, w, 1⟩
      else if cfg.enableGradient then
        let rel := checkCategoryRelation uc ec
        if 0 < rel then ⟨w * rel, w, rel⟩ else ⟨0, w, 0⟩
      else ⟨0, w, 0⟩

/-- `_score_income`. -/
def incomeContrib (cfg : ScoringConfig) (user : UserProfile) (elig : Eligibility) : Contrib :=
  match elig.max_income with
  | none => ⟨0, 0, 1⟩
  | some mi =>
    let w := cfg.weights.income
    let ui := safeInt user.annual_income
    if ui ≤ 0 then ⟨0, w, 0⟩
    else if ui ≤ mi then
      if cfg.enableGradient ∧ 0 < mi then
        let ratio : ℚ := (ui : ℚ) / (mi : ℚ)
        if ratio ≤ 1/2 then ⟨w, w, 1⟩
        else if ratio ≤ 8/10 then ⟨w * (95/100), w, 95/100⟩
        else ⟨w * (85/100), w, 85/100⟩
      else ⟨w, w, 1⟩
    else
      if cfg.enableGradient then
        let overshoot : ℚ := ((ui : ℚ) - (mi : ℚ)) / (mi : ℚ)
        if overshoot ≤ 1/10 then ⟨w * (3/10), w, 3/10⟩
        else ⟨0, w, 0⟩
      else ⟨0, w, 0⟩

/-- `_score_occupation`. -/
def occupationContrib (cfg : ScoringConfig) (user : UserProfile) (elig : Eligibility) : Contrib :=
  let occs := elig.occupation.getD []
  if occs = [] then ⟨0, 0, 1⟩
  else
    let w := cfg.weights.occupation
    let uo := stripStr (lowerStr (user.occupation.getD ""))
    if uo = "" then ⟨0, w, 0⟩
    else
      let eo := occs.map lowerStr
      if uo ∈ eo then ⟨w, w, 1⟩
      else if cfg.enableGradient then
        let rel := checkOccupationRelation uo eo
        if 0 < rel then ⟨w * rel, w, rel⟩ else ⟨0, w, 0⟩
      else ⟨0, w, 0⟩

/-- `_score_special_flags`: the four boolean flags scored as one block. -/
def specialFlagsContrib (cfg : ScoringConfig) (user : UserProfile) (elig : Eligibility) : Contrib :=
  let w := cfg.weights.special
  let pairs : List (Option Bool × Bool) :=
    [(elig.is_bpl, user.is_bpl.getD false),
     (elig.is_farmer, user.is_farmer.getD false),
     (elig.is_student, user.is_student.getD false),
     (elig.disability, user.disability.getD false)]
  let app : ℚ := pairs.foldl (fun acc p => match p.1 with
    | none => acc
    | some _ => acc + w) 0
  let sc : ℚ := pairs.foldl (fun acc p => match p.1 with
    | none => acc
    | some ev => if p.2 = ev then acc + w else acc) 0
  if app = 0 then ⟨0, 0, 1⟩ else ⟨sc, app, sc / app⟩

/-! ### ScoreBreakdown -/

/-- One stored entry of `ScoreBreakdown.field_scores` (`add_field` stores
    values rounded to two decimals; the percentage entry is derived and the
    detail string presentational, both omitted). -/
structure FieldScore : Type where
  earned : ℚ
  applicable : ℚ
  gradient : ℚ
deriving DecidableEq

structure Breakdown : Type where
  field_scores : List (String × FieldScore)
  total_earned : ℚ
  total_applicable : ℚ
  bonuses : List (String × ℤ)
  penalties : List (String × ℤ)
  final_score : ℤ
  confidence : ℤ
deriving DecidableEq

def Breakdown.addField (b : Breakdown) (nm : String) (c : Contrib) : Breakdown :=
  { b with
    field_scores := b.field_scores ++ [(nm, ⟨round2 c.earned, round2 c.applicable, round2 c.gradient⟩)],
    total_earned := b.total_earned + c.earned,
    total_applicable := b.total_applicable + c.applicable }

def Breakdown.addBonus (b : Breakdown) (nm : String) (pts : ℤ) : Breakdown :=
  { b with bonuses := b.bonuses ++ [(nm, pts)] }

def Breakdown.addPenalty (b : Breakdown) (nm : String) (pts : ℤ) : Breakdown :=
  { b with penalties := b.penalties ++ [(nm, pts)] }

def emptyBreakdown : Breakdown := ⟨[], 0, 0, [], [], 0, 0⟩

/-- The seven `_score_*` calls of `calculate_detailed_score`, in order. -/
def scoreFields (cfg : ScoringConfig) (user : UserProfile) (elig : Eligibility) : Breakdown :=
  (((((((emptyBreakdown.addField "age" (ageContrib cfg user elig)).addField
    "gender" (genderContrib cfg user elig)).addField
    "state" (stateContrib cfg user elig)).addField
    "category" (categoryContrib cfg user elig)).addField
    "income" (incomeContrib cfg user elig)).addField
    "occupation" (occupationContrib cfg user elig)).addField
    "special_flags" (specialFlagsContrib cfg user elig))

/-- `_apply_bonuses`. -/
def applyBonuses (user : UserProfile) (elig : Eligibility) (b : Breakdown) : Breakdown :=
  let applicableFields := (b.field_scores.filter (fun f => 0 < f.2.applicable)).length
  let matchedFields := (b.field_scores.filter
    (fun f => 0 < f.2.applicable ∧ 8/10 ≤ f.2.gradient)).length
  let b := if 3 ≤ applicableFields ∧ matchedFields = applicableFields then
      b.addBonus "perfect_alignment" 3
    else b
  let userBpl := user.is_bpl.getD false
  let userDisability := user.disability.getD false
  let userAge := safeInt user.age
  let b := if userBpl ∧ userDisability then b.addBonus "vulnerable_priority" 3
    else if userBpl then b.addBonus "bpl_priority" 1
    else b
  let b := if 60 ≤ userAge then b.addBonus "senior_citizen" 1 else b
  let userCat := lowerStr (user.category.getD "")
  let eligCats := elig.category.getD []
  if eligCats ≠ [] ∧ userCat ≠ "" ∧ eligCats.length ≤ 2 ∧ userCat ∈ eligCats.map lowerStr then
    b.addBonus "targeted_scheme" 2
  else b

/-- The number of the six key profile fields the user provided
    (`_apply_penalties`; Python counts a value that is not `None`, `''`
    or `0`). -/
def intProvided (v : Option ℤ) : Bool :=
  match v with
  | some n => decide (n ≠ 0)
  | none => false

def strProvided (v : Option String) : Bool :=
  match v with
  | some s => decide (s ≠ "")
  | none => false

def providedKeyFields (user : UserProfile) : ℕ :=
  (if intProvided user.age then 1 else 0) +
  (if strProvided user.gender then 1 else 0) +
  (if strProvided user.state then 1 else 0) +
  (if strProvided user.category then 1 else 0) +
  (if intProvided user.annual_income then 1 else 0) +
  (if strProvided user.occupation then 1 else 0)

/-- `_apply_penalties` (the age-boundary branch only appends advisory
    notes, which are not modelled). -/
def applyPenalties (user : UserProfile) (b : Breakdown) : Breakdown :=
  if providedKeyFields user ≤ 2 then b.addPenalty "sparse_profile" 3 else b

/-- `ScoreBreakdown.calculate_final`. -/
def Breakdown.calculateFinal (b : Breakdown) : Breakdown :=
  if b.total_applicable = 0 then
    { b with final_score := 50, confidence := 0 }
  else
    let base := b.total_earned / b.total_applicable * 100
    let bonusTotal : ℤ := (b.bonuses.map (·.2)).sum
    let penaltyTotal : ℤ := (b.penalties.map (·.2)).sum
    let adjusted : ℚ := base + (bonusTotal : ℚ) - (penaltyTotal : ℚ)
    let fs : ℤ := max 0 (min (pyInt adjusted) 100)
    let applicableFields := (b.field_scores.filter (fun f => 0 < f.2.applicable)).length
    let totalFields : ℕ := if b.field_scores = [] then 1 else b.field_scores.length
    let conf := roundHalfEven ((applicableFields : ℚ) / ((max totalFields 1 : ℕ) : ℚ) * 100)
    { b with final_score := fs, confidence := conf }

/-- `ScoringEngine.calculate_detailed_score`. -/
def calculateDetailedScore (cfg : ScoringConfig) (user : UserProfile) (elig : Eligibility) :
    Breakdown :=
  (applyPenalties user (applyBonuses user elig (scoreFields cfg user elig))).calculateFinal

/-- `ScoringEngine.calculate_score`. -/
def calculateScore (cfg : ScoringConfig) (user : UserProfile) (elig : Eligibility) : ℤ :=
  (calculateDetailedScore cfg user elig).final_score

/-! ### Matching engine (matching_engine.py) -/

/-- `FilterReason` constants. -/
inductive FilterReason : Type where
  | stateMismatch
  | genderMismatch
  | ageTooYoung
  | ageTooOld
  | incomeTooHigh
  | bplRequired
  | lowScore
deriving DecidableEq

/-- `_pass_hard_filters`: fixed order state → gender → age → income → BPL,
    first failing check decides the rejection reason. -/
def passHardFilters (user : UserProfile) (elig : Eligibility) : Bool × Option FilterReason :=
  let sv := elig.states.getD (.strVal "all")
  let userState := user.state.getD ""
  let stateReject : Bool := match sv with
    | .strVal s => if s = "all" then false else decide (userState ≠ s)
    | .listVal l => decide (userState ∉ l)
  if stateReject then (false, some .stateMismatch)
  else
    let genderReq := elig.gender.getD "all"
    let userGender := lowerStr (user.gender.getD "")
    if genderReq ≠ "all" ∧ userGender ≠ "" ∧ userGender ≠ lowerStr genderReq then
      (false, some .genderMismatch)
    else
      let userAge := safeInt user.age
      let tooYoung : Bool := match elig.min_age with
        | some m => decide (userAge < m)
        | none => false
      if tooYoung then (false, some .ageTooYoung)
      else
        let tooOld : Bool := match elig.max_age with
          | some m => decide (m < userAge)
          | none => false
        if tooOld then (false, some .ageTooOld)
        else
          let userIncome := safeInt user.annual_income
          let incomeHigh : Bool := match elig.max_income with
            | some mi => decide (0 < userIncome ∧ mi < userIncome)
            | none => false
          if incomeHigh then (false, some .incomeTooHigh)
          else
            if elig.is_bpl = some true ∧ user.is_bpl.getD false = false then
              (false, some .bplRequired)
            else (true, none)

/-- `_apply_adjustments` with the default `MatchConfig` boost and penalty
    values (the returned description strings are presentational and
    omitted). -/
def applyAdjustments (base : ℤ) (user : UserProfile) (scheme : Scheme)
    (elig : Eligibility) : ℤ :=
  let a := base
  let userBpl := user.is_bpl.getD false
  let a := if userBpl ∧ elig.is_bpl = some true then a + 5 else a
  let userDisability := user.disability.getD false
  let a := if userDisability then a + 5 else a
  let userAge := safeInt user.age
  let a := if 60 ≤ userAge then a + 3 else a
  let a := if elig.gender = some "female" ∧ lowerStr (user.gender.getD "") = "female" then
      a + 2
    else a
  let eligOccs := elig.occupation.getD []
  let userOcc := lowerStr (user.occupation.getD "")
  let a := if eligOccs ≠ [] ∧ userOcc ≠ "" ∧ userOcc ∈ eligOccs.map lowerStr then a + 5 else a
  let eligCats := elig.category.getD []
  let userCat := lowerStr (user.category.getD "")
  let a := if eligCats ≠ [] ∧ userCat ≠ "" ∧ userCat ∈ eligCats.map lowerStr then a + 3 else a
  let a := if (scheme.url.getD "") = "" then a - 2 else a
  let a := if (scheme.description.getD "") = "" then a - 3 else a
  a

/-- Match tiers (`MatchResult._calculate_tier`). -/
inductive Tier : Type where
  | perfect
  | strong
  | moderate
  | partialMatch
deriving DecidableEq

def tierOfScore (s : ℤ) : Tier :=
  if 90 ≤ s then .perfect
  else if 75 ≤ s then .strong
  else if 50 ≤ s then .moderate
  else .partialMatch

/-- `tier_order` used as the secondary sort key of `find_matches`. -/
def tierRank : Tier → ℕ
  | .perfect => 0
  | .strong => 1
  | .moderate => 2
  | .partialMatch => 3

/-- One entry of the list `find_matches` returns (`MatchResult.to_dict`:
    a copy of the scheme annotated with score and tier; the optional
    human-readable reason strings are presentational and omitted). -/
structure MatchOutput : Type where
  scheme : Scheme
  match_score : ℤ
  match_tier : Tier
deriving DecidableEq

/-- The mutable state of a `MatchingEngine`: its scheme list and its
    result cache (advisory analytics counters are omitted). -/
structure EngineState : Type where
  schemes : List Scheme
  cache : List (String × List MatchOutput)
deriving DecidableEq

/-- `MatchingEngine.__init__`: fresh engine with an empty cache. -/
def initEngine (schemes : List Scheme) : EngineState := ⟨schemes, []⟩

def showOptInt : Option ℤ → String
  | none => ""
  | some n => toString n

def showOptStr (v : Option String) : String := v.getD ""

def showOptBool : Option Bool → String
  | none => ""
  | some true => "True"
  | some false => "False"

/-- `_build_cache_key`: profile fields in sorted key order, then the
    category / type filters when truthy. -/
def buildCacheKey (user : UserProfile) (categoryFilter typeFilter : Option String) : String :=
  let parts : List String :=
    ["age=" ++ showOptInt user.age,
     "annual_income=" ++ showOptInt user.annual_income,
     "category=" ++ showOptStr user.category,
     "disability=" ++ showOptBool user.disability,
     "gender=" ++ showOptStr user.gender,
     "is_bpl=" ++ showOptBool user.is_bpl,
     "is_farmer=" ++ showOptBool user.is_farmer,
     "occupation=" ++ showOptStr user.occupation,
     "state=" ++ showOptStr user.state]
  let parts := parts ++ (match categoryFilter with
    | some c => if c ≠ "" then ["cat=" ++ c] else []
    | none => [])
  let parts := parts ++ (match typeFilter with
    | some t => if t ≠ "" then ["type=" ++ t] else []
    | none => [])
  String.intercalate "|" parts

/-- `_pre_filter`. -/
def preFilter (schemes : List Scheme) (categoryFilter typeFilter : Option String) :
    List Scheme :=
  let s1 := match categoryFilter with
    | some c => if c ≠ "" then
        schemes.filter (fun s => lowerStr (s.category.getD "") = lowerStr c)
      else schemes
    | none => schemes
  match typeFilter with
  | some t => if t ≠ "" then
      s1.filter (fun s => lowerStr (s.schemeType.getD "") = lowerStr t)
    else s1
  | none => s1

/-- The sort key `(-score, tier_order)` of `find_matches` as a Boolean
    total preorder for the stable merge sort. -/
def matchSortLE (a b : MatchOutput) : Bool :=
  decide (b.match_score < a.match_score) ||
    (decide (a.match_score = b.match_score) &&
      decide (tierRank a.match_tier ≤ tierRank b.match_tier))

/-- The tier-1/2/3 pipeline of `find_matches` applied to one candidate:
    hard filters, base score, adjustments, clamp, minimum-score cut. -/
def scoreCandidate (user : UserProfile) (minScore : ℤ) (s : Scheme) : Option MatchOutput :=
  let e := s.eligibility
  if (passHardFilters user e).1 then
    let base := calculateScore defaultScoringConfig user e
    let adj := applyAdjustments base user s e
    let finalScore := max 0 (min adj 100)
    if finalScore < minScore then none
    else some ⟨s, finalScore, tierOfScore finalScore⟩
  else none

/-- The body of `find_matches` once the effective limits are fixed:
    cache probe, per-candidate pipeline, stable sort by `(-score, tier)`,
    truncation, cache write-back. -/
def findMatchesCore (st : EngineState) (user : UserProfile) (maxEff minEff : ℤ)
    (categoryFilter typeFilter : Option String) (debug : Bool) :
    List MatchOutput × EngineState :=
  let key := buildCacheKey user categoryFilter typeFilter
  let cached := (assocLookup st.cache key).getD []
  if cached ≠ [] ∧ debug = false then
    (pySlice cached maxEff, st)
  else
    let candidates := preFilter st.schemes categoryFilter typeFilter
    let matched := candidates.filterMap (scoreCandidate user minEff)
    let sortedMatches := matched.mergeSort matchSortLE
    let results := pySlice sortedMatches maxEff
    (results, { st with cache := assocUpdate st.cache key results })

/-- `MatchingEngine.find_matches` (with `include_reasons=False`): returns
    the result list and the updated engine state.  `None` arguments model
    omitted keyword arguments; `max_results or DEFAULT` is capped by the
    absolute ceiling 100 and `min_score or MIN` defaults to 30. -/
def findMatches (st : EngineState) (user : UserProfile)
    (maxResults minScore : Option ℤ) (categoryFilter typeFilter : Option String)
    (debug : Bool) : List MatchOutput × EngineState :=
  findMatchesCore st user (min (pyOrInt maxResults 20) 100) (pyOrInt minScore 30)
    categoryFilter typeFilter debug

/-- `_find_scheme`. -/
def findScheme (schemes : List Scheme) (schemeId : String) : Option Scheme :=
  schemes.find? (fun s => s.id = some schemeId)

/-- `get_scheme_detail`: `None` when the id is unknown. -/
def getSchemeDetail (st : EngineState) (schemeId : String) : Option Scheme :=
  findScheme st.schemes schemeId

/-- One entry of the `compare_schemes` result list. -/
inductive CompareEntry : Type where
  | notFound (schemeId : String)
  | rejected (scheme : Scheme) (reason : Option FilterReason)
  | scored (scheme : Scheme) (score : ℤ) (tier : Tier)
deriving DecidableEq

/-- `x.get('match_score', 0)` on a compare entry: the not-found dict has
    no score key and a hard-filtered scheme is reported with score 0. -/
def compareEntryScore : CompareEntry → ℤ
  | .notFound _ => 0
  | .rejected _ _ => 0
  | .scored _ s _ => s

/-- `compare_schemes`: unknown ids become explicit not-found entries,
    hard-filtered schemes are included with score 0, and the list is
    sorted by score descending. -/
def compareSchemes (st : EngineState) (user : UserProfile) (schemeIds : List String) :
    List CompareEntry :=
  let results := schemeIds.map (fun sid =>
    match findScheme st.schemes sid with
    | none => CompareEntry.notFound sid
    | some s =>
      let e := s.eligibility
      let pr := passHardFilters user e
      if pr.1 = false then CompareEntry.rejected s pr.2
      else
        let base := calculateScore defaultScoringConfig user e
        let adj := applyAdjustments base user s e
        let finalScore := max 0 (min adj 100)
        CompareEntry.scored s finalScore (tierOfScore finalScore))
  results.mergeSort (fun a b => decide (compareEntryScore b ≤ compareEntryScore a))

/-- One per-dimension entry of `check_eligibility`'s `checks` list
    (field name and pass/fail status; the detail strings are
    presentational and omitted). -/
structure EligCheck : Type where
  fieldName : String
  passed : Bool
deriving DecidableEq

/-- The per-dimension checks of `check_eligibility`, evaluated
    independently of the hard-filter short circuit.  The occupation check
    is only appended when the rule restricts occupation, and the BPL check
    only when the rule sets `is_bpl` (to `true` or `false`). -/
def eligChecks (user : UserProfile) (elig : Eligibility) : List EligCheck :=
  let userAge := safeInt user.age
  let ageC : EligCheck :=
    if elig.min_age = none ∧ elig.max_age = none then ⟨"age", true⟩
    else
      let tooYoung : Bool := match elig.min_age with
        | some m => decide (userAge < m)
        | none => false
      let tooOld : Bool := match elig.max_age with
        | some m => decide (m < userAge)
        | none => false
      if tooYoung then ⟨"age", false⟩
      else if tooOld then ⟨"age", false⟩
      else ⟨"age", true⟩
  let genderReq := elig.gender.getD "all"
  let userGender := lowerStr (user.gender.getD "")
  let genderC : EligCheck :=
    if genderReq = "all" then ⟨"gender", true⟩
    else if userGender = lowerStr genderReq then ⟨"gender", true⟩
    else ⟨"gender", false⟩
  let sv := elig.states.getD (.strVal "all")
  let userState := user.state.getD ""
  let stateC : EligCheck := match sv with
    | .strVal s =>
      if s = "all" then ⟨"state", true⟩
      else if userState = s then ⟨"state", true⟩
      else ⟨"state", false⟩
    | .listVal l => if userState ∈ l then ⟨"state", true⟩ else ⟨"state", false⟩
  let userIncome := safeInt user.annual_income
  let incomeC : EligCheck := match elig.max_income with
    | none => ⟨"income", true⟩
    | some mi => if userIncome ≤ mi then ⟨"income", true⟩ else ⟨"income", false⟩
  let eligCats := elig.category.getD []
  let userCat := lowerStr (user.category.getD "")
  let catC : EligCheck :=
    if eligCats = [] then ⟨"social_category", true⟩
    else if userCat ∈ eligCats.map lowerStr then ⟨"social_category", true⟩
    else ⟨"social_category", false⟩
  let eligOccs := elig.occupation.getD []
  let userOcc := lowerStr (user.occupation.getD "")
  let occList : List EligCheck :=
    if eligOccs = [] then []
    else if userOcc ∈ eligOccs.map lowerStr then [⟨"occupation", true⟩]
    else [⟨"occupation", false⟩]
  let bplList : List EligCheck := match elig.is_bpl with
    | none => []
    | some req =>
      if user.is_bpl.getD false = req then [⟨"bpl_status", true⟩]
      else [⟨"bpl_status", false⟩]
  [ageC, genderC, stateC, incomeC, catC] ++ occList ++ bplList

/-- The result of `check_eligibility`: either the explicit not-found dict
    (`error` key present, `eligible: False`) or the full report. -/
inductive CheckEligResult : Type where
  | notFound
  | report (eligibleFlag : Bool) (matchScore : ℤ) (checks : List EligCheck)
      (passedCount failedCount : ℕ)
deriving DecidableEq

/-- `check_eligibility`. -/
def checkEligibility (st : EngineState) (user : UserProfile) (schemeId : String) :
    CheckEligResult :=
  match findScheme st.schemes schemeId with
  | none => .notFound
  | some s =>
    let e := s.eligibility
    let checks := eligChecks user e
    let failedCount := (checks.filter (fun c => c.passed = false)).length
    let passedCount := (checks.filter (fun c => c.passed = true)).length
    let isEligible := failedCount = 0
    let score : ℤ :=
      if isEligible then
        let base := calculateScore defaultScoringConfig user e
        max 0 (min (applyAdjustments base user s e) 100)
      else 0
    .report (decide isEligible) score checks passedCount failedCount

/-- `update_schemes`: replace the scheme list and clear the cache. -/
def updateSchemes (_st : EngineState) (newSchemes : List Scheme) : EngineState :=
  ⟨newSchemes, []⟩

/-- `clear_cache`. -/
def clearCache (st : EngineState) : EngineState := ⟨st.schemes, []⟩

/-! ### Distinguished concrete inputs -/

/-- A user profile with every key absent. -/
def emptyUser : UserProfile := {}

/-- An eligibility rule with every field unset. -/
def emptyElig : Eligibility := {}

/-! ### Shared evaluation lemmas -/

/-- `calculate_final` on a breakdown with nonzero applicable weight. -/
theorem calculateFinal_eval (b : Breakdown) (hta : ¬ b.total_applicable = 0)
    (hn1 : 1 ≤ b.field_scores.length) :
    b.calculateFinal = { b with
      final_score := max 0 (min (pyInt (b.total_earned / b.total_applicable * 100 +
        (((b.bonuses.map (fun x => x.2)).sum : ℤ) : ℚ) -
        (((b.penalties.map (fun x => x.2)).sum : ℤ) : ℚ))) 100),
      confidence := roundHalfEven
        (((b.field_scores.filter (fun f => 0 < f.2.applicable)).length : ℚ) /
          ((b.field_scores.length : ℕ) : ℚ) * 100) } := by
  have hne : ¬ b.field_scores = [] := by
    intro h
    rw [h] at hn1
    exact absurd hn1 (by norm_num)
  unfold Breakdown.calculateFinal
  rw [if_neg hta]
  simp only [if_neg hne, Nat.max_eq_left hn1]

theorem calculateFinal_total_applicable (b : Breakdown) :
    b.calculateFinal.total_applicable = b.total_applicable := by
  unfold Breakdown.calculateFinal
  split <;> rfl

theorem applyBonuses_frame (u : UserProfile) (e : Eligibility) (b : Breakdown) :
    (applyBonuses u e b).field_scores = b.field_scores ∧
    (applyBonuses u e b).total_earned = b.total_earned ∧
    (applyBonuses u e b).total_applicable = b.total_applicable ∧
    (applyBonuses u e b).penalties = b.penalties := by
  simp only [applyBonuses]
  split_ifs <;> simp [Breakdown.addBonus]

theorem applyPenalties_frame (u : UserProfile) (b : Breakdown) :
    (applyPenalties u b).field_scores = b.field_scores ∧
    (applyPenalties u b).total_earned = b.total_earned ∧
    (applyPenalties u b).total_applicable = b.total_applicable ∧
    (applyPenalties u b).bonuses = b.bonuses := by
  simp only [applyPenalties]
  split_ifs <;> simp [Breakdown.addPenalty]

/-- The penalty pass appends at most the 3-point sparse-profile penalty. -/
theorem applyPenalties_sum (u : UserProfile) (b : Breakdown) (hb : b.penalties = []) :
    ((applyPenalties u b).penalties.map (fun x => x.2)).sum = 0 ∨
    ((applyPenalties u b).penalties.map (fun x => x.2)).sum = 3 := by
  simp only [applyPenalties]
  split_ifs <;> simp [Breakdown.addPenalty, hb]

theorem pyInt_intCast (z : ℤ) : pyInt ((z : ℚ)) = z := by
  unfold pyInt
  split <;> simp

/-- The field scores produced for the all-unset eligibility rule. -/
def allUnsetFieldScores : List (String × FieldScore) :=
  [("age", ⟨0, 0, 1⟩), ("gender", ⟨0, 0, 1⟩), ("state", ⟨20, 20, 1⟩),
   ("category", ⟨0, 0, 1⟩), ("income", ⟨0, 0, 1⟩), ("occupation", ⟨0, 0, 1⟩),
   ("special_flags", ⟨0, 0, 1⟩)]

/-- Scoring any profile against the all-unset rule: `states` defaults to
    `'all'`, which earns the full state weight with the state weight
    applicable; every other dimension contributes `(0, 0)`. -/
theorem scoreFields_emptyElig (u : UserProfile) :
    scoreFields defaultScoringConfig u emptyElig =
      Breakdown.mk allUnsetFieldScores 20 20 [] [] 0 0 := by
  norm_num [scoreFields, Breakdown.addField, emptyBreakdown, ageContrib, genderContrib,
    stateContrib, categoryContrib, incomeContrib, occupationContrib, specialFlagsContrib,
    defaultScoringConfig, Weights.balanced, emptyElig, round2, roundHalfEven, List.foldl,
    allUnsetFieldScores]

/-- Bounds on the total bonus points awarded over the all-unset rule:
    the perfect-alignment and targeted-scheme bonuses cannot fire, leaving
    only the vulnerable-group (3), BPL (1) and senior-citizen (1)
    bonuses. -/
theorem applyBonuses_emptyElig_sum (u : UserProfile) :
    0 ≤ (((applyBonuses u emptyElig
        (Breakdown.mk allUnsetFieldScores 20 20 [] [] 0 0)).bonuses.map (fun x => x.2)).sum) ∧
    (((applyBonuses u emptyElig
        (Breakdown.mk allUnsetFieldScores 20 20 [] [] 0 0)).bonuses.map (fun x => x.2)).sum) ≤ 4 := by
  simp only [applyBonuses]
  norm_num [emptyElig, allUnsetFieldScores, List.filter]
  split_ifs <;> simp [Breakdown.addBonus]

/-- C1 (counterexample): the all-unset eligibility rule does not score 50
    with confidence 0 — on the empty profile it scores 97 with confidence
    14, because the unset `states` field defaults to `'all'` and earns the
    full state weight (applicable 20), so the no-applicable-criteria
    branch of `calculate_final` is not taken. -/
theorem C1_counterexample :
    (calculateDetailedScore defaultScoringConfig emptyUser emptyElig).final_score = 97 ∧
    (calculateDetailedScore defaultScoringConfig emptyUser emptyElig).confidence = 14 ∧
    ¬((calculateDetailedScore defaultScoringConfig emptyUser emptyElig).final_score = 50 ∧
      (calculateDetailedScore defaultScoringConfig emptyUser emptyElig).confidence = 0) := by
  have hcalc : calculateDetailedScore defaultScoringConfig emptyUser emptyElig =
      (Breakdown.mk allUnsetFieldScores 20 20 [] [("sparse_profile", 3)] 0 0).calculateFinal := by
    unfold calculateDetailedScore
    rw [scoreFields_emptyElig]
    norm_num [applyBonuses, applyPenalties, Breakdown.addBonus, Breakdown.addPenalty,
      providedKeyFields, intProvided, strProvided, emptyUser, emptyElig, safeInt,
      List.filter, allUnsetFieldScores]
  rw [hcalc, calculateFinal_eval _ (by norm_num) (by norm_num [allUnsetFieldScores])]
  norm_num [allUnsetFieldScores, List.filter, pyInt, roundHalfEven]

/-- C1 (amended): for every user profile, the all-unset eligibility rule
    yields total earned = total applicable = 20 (the full state weight,
    from the `'all'` default), confidence 14 (one of seven dimensions
    applicable), and a final score of at least 97 — never the neutral
    50-with-confidence-0 result, which would require zero applicable
    weight. -/
theorem C1_amended (u : UserProfile) :
    (calculateDetailedScore defaultScoringConfig u emptyElig).total_earned = 20 ∧
    (calculateDetailedScore defaultScoringConfig u emptyElig).total_applicable = 20 ∧
    (calculateDetailedScore defaultScoringConfig u emptyElig).confidence = 14 ∧
    97 ≤ (calculateDetailedScore defaultScoringConfig u emptyElig).final_score := by
  have h2 : calculateDetailedScore defaultScoringConfig u emptyElig =
      (applyPenalties u (applyBonuses u emptyElig
        (Breakdown.mk allUnsetFieldScores 20 20 [] [] 0 0))).calculateFinal := by
    unfold calculateDetailedScore
    rw [scoreFields_emptyElig]
  obtain ⟨hbf, hbe, hba, hbp⟩ :=
    applyBonuses_frame u emptyElig (Breakdown.mk allUnsetFieldScores 20 20 [] [] 0 0)
  obtain ⟨hpf, hpe, hpa, hpb⟩ :=
    applyPenalties_frame u (applyBonuses u emptyElig
      (Breakdown.mk allUnsetFieldScores 20 20 [] [] 0 0))
  obtain ⟨hS0, hS4⟩ := applyBonuses_emptyElig_sum u
  have hPsum := applyPenalties_sum u (applyBonuses u emptyElig
      (Breakdown.mk allUnsetFieldScores 20 20 [] [] 0 0)) (by rw [hbp])
  rw [h2, calculateFinal_eval _ (by rw [hpa, hba]; norm_num)
    (by rw [hpf, hbf]; norm_num [allUnsetFieldScores])]
  simp only [hpf, hbf, hpe, hbe, hpa, hba, hpb]
  refine ⟨trivial, trivial, ?_, ?_⟩
  · norm_num [allUnsetFieldScores, List.filter, roundHalfEven]
  · have hq : (20 : ℚ) / 20 * 100 +
        ((((applyBonuses u emptyElig
          (Breakdown.mk allUnsetFieldScores 20 20 [] [] 0 0)).bonuses.map (fun x => x.2)).sum : ℤ) : ℚ) -
        ((((applyPenalties u (applyBonuses u emptyElig
          (Breakdown.mk allUnsetFieldScores 20 20 [] [] 0 0))).penalties.map (fun x => x.2)).sum : ℤ) : ℚ) =
        (((100 + ((applyBonuses u emptyElig
          (Breakdown.mk allUnsetFieldScores 20 20 [] [] 0 0)).bonuses.map (fun x => x.2)).sum -
          ((applyPenalties u (applyBonuses u emptyElig
          (Breakdown.mk allUnsetFieldScores 20 20 [] [] 0 0))).penalties.map (fun x => x.2)).sum : ℤ)) : ℚ) := by
      push_cast
      ring
    rw [hq, pyInt_intCast]
    rcases hPsum with hP | hP <;> rw [hP] <;> omega

/-- C2 (counterexample): a user profile with no `state` key at all is
    rejected by the hard filters (reason `state_mismatch`) by a scheme
    restricted to a state list — a missing user field other than age does
    cause rejection. -/
theorem C2_counterexample :
    passHardFilters emptyUser { states := some (.listVal ["Bihar"]) } =
      (false, some FilterReason.stateMismatch) ∧
    emptyUser.state = none := by
  constructor
  · norm_num [passHardFilters, emptyUser]
    decide
  · rfl

/-- C2 (amended): a missing user gender and a missing (or non-positive)
    user income indeed never cause a hard-filter rejection; but besides
    age, a missing user state is rejected whenever the rule lists eligible
    states (the empty string is not a member), and a missing `is_bpl` flag
    is rejected whenever the rule requires BPL status. -/
theorem C2_amended (u : UserProfile) (e : Eligibility) :
    ((passHardFilters u e).2 = some FilterReason.genderMismatch →
      ¬ lowerStr (u.gender.getD "") = "") ∧
    ((passHardFilters u e).2 = some FilterReason.incomeTooHigh →
      0 < safeInt u.annual_income) ∧
    (u.state = none → ∀ l : List String, e.states = some (.listVal l) → ¬ "" ∈ l →
      passHardFilters u e = (false, some FilterReason.stateMismatch)) ∧
    (u.is_bpl = none → e = { is_bpl := some true } →
      passHardFilters u e = (false, some FilterReason.bplRequired)) := by
  refine ⟨?_, ?_, ?_, ?_⟩
  · intro h hg
    simp only [passHardFilters] at h
    split_ifs at h <;> simp_all
  · intro h
    simp only [passHardFilters] at h
    split_ifs at h <;>
      rcases hmi : e.max_income with _ | mi <;>
      simp_all
  · intro hs l hl hmem
    simp [passHardFilters, hs, hl, hmem]
  · intro hb he
    subst he
    simp [passHardFilters, hb]

/-- C2 (witness): the state conjunct of the amended claim at the concrete
    rejected input. -/
theorem C2_witness :
    passHardFilters emptyUser { states := some (.listVal ["Bihar"]) } =
      (false, some FilterReason.stateMismatch) :=
  (C2_amended emptyUser { states := some (.listVal ["Bihar"]) }).2.2.1 rfl
    ["Bihar"] rfl (by simp)


/-! ### Nonnegativity of earned credit -/

theorem checkStateProximity_nonneg (s : String) (l : List String) :
    0 ≤ checkStateProximity s l := by
  unfold checkStateProximity
  split_ifs <;> norm_num

theorem checkCategoryRelation_nonneg (c : String) (l : List String) :
    0 ≤ checkCategoryRelation c l := by
  unfold checkCategoryRelation
  split_ifs <;> norm_num

theorem checkOccupationRelation_nonneg (o : String) (l : List String) :
    0 ≤ checkOccupationRelation o l := by
  unfold checkOccupationRelation
  split_ifs <;> norm_num

theorem ageContrib_earned_nonneg (cfg : ScoringConfig) (u : UserProfile) (e : Eligibility)
    (hw : 0 ≤ cfg.weights.age) : 0 ≤ (ageContrib cfg u e).earned := by
  unfold ageContrib
  repeat' first
    | split
    | dsimp only
  all_goals positivity

theorem genderContrib_earned_nonneg (cfg : ScoringConfig) (u : UserProfile) (e : Eligibility)
    (hw : 0 ≤ cfg.weights.gender) : 0 ≤ (genderContrib cfg u e).earned := by
  unfold genderContrib
  repeat' first
    | split
    | dsimp only
  all_goals positivity

theorem stateContrib_earned_nonneg (cfg : ScoringConfig) (u : UserProfile) (e : Eligibility)
    (hw : 0 ≤ cfg.weights.state) : 0 ≤ (stateContrib cfg u e).earned := by
  unfold stateContrib
  repeat' first
    | split
    | dsimp only
  all_goals first
    | positivity
    | exact mul_nonneg hw (checkStateProximity_nonneg _ _)

theorem categoryContrib_earned_nonneg (cfg : ScoringConfig) (u : UserProfile) (e : Eligibility)
    (hw : 0 ≤ cfg.weights.category) : 0 ≤ (categoryContrib cfg u e).earned := by
  unfold categoryContrib
  repeat' first
    | split
    | dsimp only
  all_goals first
    | positivity
    | exact mul_nonneg hw (checkCategoryRelation_nonneg _ _)

theorem incomeContrib_earned_nonneg (cfg : ScoringConfig) (u : UserProfile) (e : Eligibility)
    (hw : 0 ≤ cfg.weights.income) : 0 ≤ (incomeContrib cfg u e).earned := by
  unfold incomeContrib
  repeat' first
    | split
    | dsimp only
  all_goals positivity

theorem occupationContrib_earned_nonneg (cfg : ScoringConfig) (u : UserProfile) (e : Eligibility)
    (hw : 0 ≤ cfg.weights.occupation) : 0 ≤ (occupationContrib cfg u e).earned := by
  unfold occupationContrib
  repeat' first
    | split
    | dsimp only
  all_goals first
    | positivity
    | exact mul_nonneg hw (checkOccupationRelation_nonneg _ _)

theorem specialScoreFold_nonneg (w : ℚ) (hw : 0 ≤ w) (l : List (Option Bool × Bool)) :
    ∀ acc : ℚ, 0 ≤ acc →
    0 ≤ l.foldl (fun acc p => match p.1 with
      | none => acc
      | some ev => if p.2 = ev then acc + w else acc) acc := by
  induction l with
  | nil => exact fun acc hacc => hacc
  | cons hd tl ih =>
    intro acc hacc
    rcases hd with ⟨ob, ub⟩
    rcases ob with _ | ev
    · exact ih acc hacc
    · dsimp only [List.foldl]
      split_ifs
      · exact ih _ (add_nonneg hacc hw)
      · exact ih _ hacc

theorem specialFlagsContrib_earned_nonneg (cfg : ScoringConfig) (u : UserProfile)
    (e : Eligibility) (hw : 0 ≤ cfg.weights.special) :
    0 ≤ (specialFlagsContrib cfg u e).earned := by
  simp only [specialFlagsContrib]
  split
  · norm_num
  · dsimp only
    exact specialScoreFold_nonneg _ hw _ 0 le_rfl

theorem scoreFields_total_earned (cfg : ScoringConfig) (u : UserProfile) (e : Eligibility) :
    (scoreFields cfg u e).total_earned =
      (ageContrib cfg u e).earned + (genderContrib cfg u e).earned +
      (stateContrib cfg u e).earned + (categoryContrib cfg u e).earned +
      (incomeContrib cfg u e).earned + (occupationContrib cfg u e).earned +
      (specialFlagsContrib cfg u e).earned := by
  simp [scoreFields, Breakdown.addField, emptyBreakdown]

theorem scoreFields_earned_nonneg (cfg : ScoringConfig) (u : UserProfile) (e : Eligibility)
    (hw : cfg.weights.Nonneg) : 0 ≤ (scoreFields cfg u e).total_earned := by
  obtain ⟨h1, h2, h3, h4, h5, h6, h7⟩ := hw
  rw [scoreFields_total_earned]
  have a1 := ageContrib_earned_nonneg cfg u e h1
  have a2 := genderContrib_earned_nonneg cfg u e h2
  have a3 := stateContrib_earned_nonneg cfg u e h3
  have a4 := categoryContrib_earned_nonneg cfg u e h4
  have a5 := incomeContrib_earned_nonneg cfg u e h5
  have a6 := occupationContrib_earned_nonneg cfg u e h6
  have a7 := specialFlagsContrib_earned_nonneg cfg u e h7
  linarith

theorem scoreFields_length (cfg : ScoringConfig) (u : UserProfile) (e : Eligibility) :
    (scoreFields cfg u e).field_scores.length = 7 := by
  simp [scoreFields, Breakdown.addField, emptyBreakdown]

/-- The clamped Python truncation of `base + integer` equals the clamped
    `⌊base⌋ + integer` whenever `base` is nonnegative. -/
theorem clamp_pyInt_add_int (q : ℚ) (k : ℤ) (hq : 0 ≤ q) :
    max 0 (min (pyInt (q + (k : ℚ))) 100) = max 0 (min (⌊q⌋ + k) 100) := by
  rcases le_or_lt 0 (q + (k : ℚ)) with h | h
  · rw [show pyInt (q + (k : ℚ)) = ⌊q⌋ + k from by rw [pyInt, if_pos h, Int.floor_add_int]]
  · have hL : pyInt (q + (k : ℚ)) ≤ 0 := by
      rw [pyInt, if_neg (not_le.mpr h)]
      exact Int.ceil_le.mpr (by exact_mod_cast h.le)
    have hR : ⌊q⌋ + k ≤ 0 := by
      have hcast : ((⌊q⌋ + k : ℤ) : ℚ) < 0 := by
        push_cast
        have := Int.floor_le q
        linarith
      exact_mod_cast hcast.le
    rw [min_eq_left (hL.trans (by norm_num)), min_eq_left (hR.trans (by norm_num)),
      max_eq_left hL, max_eq_left hR]

/-! ### C3 -/

/-- Modelled from the claim's words: round `100 * earned / applicable` to
    the nearest integer (half rounds up), add the bonus points, subtract
    the penalty points, clamp to `[0, 100]`. -/
def specRoundHalfUp (q : ℚ) : ℤ := ⌊q + 1/2⌋

/-- Modelled from the claim's words (the claim's version of
    `calculate_final` for nonzero applicable weight). -/
def specClaimFinalScore (b : Breakdown) : ℤ :=
  max 0 (min (specRoundHalfUp (100 * b.total_earned / b.total_applicable) +
    (b.bonuses.map (fun x => x.2)).sum - (b.penalties.map (fun x => x.2)).sum) 100)

/-- The concrete profile used to separate truncation from rounding. -/
def userC3 : UserProfile :=
  { age := some 30
    state := some "Delhi"
    annual_income := some 60000
    occupation := some "clerk" }

/-- A scheme open to all states with a 100000 income ceiling. -/
def eligC3 : Eligibility := { max_income := some 100000 }

/-- The field scores of `userC3` against `eligC3` (income at 60% of the
    ceiling earns the 0.95 gradient). -/
def fieldScoresC3 : List (String × FieldScore) :=
  [("age", ⟨0, 0, 1⟩), ("gender", ⟨0, 0, 1⟩), ("state", ⟨20, 20, 1⟩),
   ("category", ⟨0, 0, 1⟩), ("income", ⟨57/4, 15, 95/100⟩), ("occupation", ⟨0, 0, 1⟩),
   ("special_flags", ⟨0, 0, 1⟩)]

theorem calcC3_eq :
    calculateDetailedScore defaultScoringConfig userC3 eligC3 =
      (Breakdown.mk fieldScoresC3 (137/4) 35 [] [] 0 0).calculateFinal := by
  unfold calculateDetailedScore
  have h1 : scoreFields defaultScoringConfig userC3 eligC3 =
      Breakdown.mk fieldScoresC3 (137/4) 35 [] [] 0 0 := by
    norm_num [scoreFields, Breakdown.addField, emptyBreakdown, ageContrib, genderContrib,
      stateContrib, categoryContrib, incomeContrib, occupationContrib, specialFlagsContrib,
      defaultScoringConfig, Weights.balanced, userC3, eligC3, safeInt, round2, roundHalfEven,
      List.foldl, fieldScoresC3]
  rw [h1]
  have hpk : providedKeyFields userC3 = 4 := by decide
  simp only [userC3] at hpk
  norm_num [applyBonuses, applyPenalties, Breakdown.addBonus, Breakdown.addPenalty,
    hpk, userC3, eligC3, safeInt, List.filter, fieldScoresC3]

/-- C3 (counterexample): at a profile whose base percentage is 685/7
    (≈ 97.857) with no bonuses or penalties, `calculate_final` truncates
    to 97 while the claim's `round` formula yields 98. -/
theorem C3_counterexample :
    (calculateDetailedScore defaultScoringConfig userC3 eligC3).final_score = 97 ∧
    specClaimFinalScore (calculateDetailedScore defaultScoringConfig userC3 eligC3) = 98 ∧
    (97 : ℤ) ≠ 98 := by
  rw [calcC3_eq, calculateFinal_eval _ (by norm_num) (by norm_num [fieldScoresC3])]
  refine ⟨?_, ?_, by norm_num⟩
  · norm_num [pyInt]
  · norm_num [specClaimFinalScore, specRoundHalfUp]

/-- C3 (amended): for every profile and eligibility rule scored with
    nonnegative weights, when the total applicable weight is positive the
    final score equals `⌊100 * earned / applicable⌋` (Python `int`
    truncation, not rounding) plus the bonus points minus the penalty
    points, clamped into [0, 100]. -/
theorem C3_amended (cfg : ScoringConfig) (u : UserProfile) (e : Eligibility)
    (hw : cfg.weights.Nonneg)
    (hta : 0 < (calculateDetailedScore cfg u e).total_applicable) :
    (calculateDetailedScore cfg u e).final_score =
      max 0 (min (⌊100 * (calculateDetailedScore cfg u e).total_earned /
          (calculateDetailedScore cfg u e).total_applicable⌋ +
        ((calculateDetailedScore cfg u e).bonuses.map (fun x => x.2)).sum -
        ((calculateDetailedScore cfg u e).penalties.map (fun x => x.2)).sum) 100) := by
  have hdef : calculateDetailedScore cfg u e =
      (applyPenalties u (applyBonuses u e (scoreFields cfg u e))).calculateFinal := rfl
  obtain ⟨hbf, hbe, hba, hbp⟩ := applyBonuses_frame u e (scoreFields cfg u e)
  obtain ⟨hpf, hpe, hpa, hpb⟩ := applyPenalties_frame u (applyBonuses u e (scoreFields cfg u e))
  have hta2 : ¬ (applyPenalties u (applyBonuses u e
      (scoreFields cfg u e))).total_applicable = 0 := by
    rw [hdef, calculateFinal_total_applicable] at hta
    linarith
  have hn7 : 1 ≤ (applyPenalties u (applyBonuses u e
      (scoreFields cfg u e))).field_scores.length := by
    rw [hpf, hbf, scoreFields_length]
    norm_num
  rw [hdef, calculateFinal_eval _ hta2 hn7]
  simp only
  have hq : 0 ≤ (applyPenalties u (applyBonuses u e
      (scoreFields cfg u e))).total_earned /
      (applyPenalties u (applyBonuses u e (scoreFields cfg u e))).total_applicable * 100 := by
    have hE : 0 ≤ (applyPenalties u (applyBonuses u e (scoreFields cfg u e))).total_earned := by
      rw [hpe, hbe]
      exact scoreFields_earned_nonneg cfg u e hw
    have hA : 0 < (applyPenalties u (applyBonuses u e
        (scoreFields cfg u e))).total_applicable := by
      rcases lt_or_le 0 ((applyPenalties u (applyBonuses u e
        (scoreFields cfg u e))).total_applicable) with h | h
      · exact h
      · exact absurd (le_antisymm h (by
          rw [hdef, calculateFinal_total_applicable] at hta
          linarith)) hta2
    positivity
  set b2 := applyPenalties u (applyBonuses u e (scoreFields cfg u e)) with hb2
  have hcast : b2.total_earned / b2.total_applicable * 100 +
      (((b2.bonuses.map (fun x => x.2)).sum : ℤ) : ℚ) -
      (((b2.penalties.map (fun x => x.2)).sum : ℤ) : ℚ) =
      b2.total_earned / b2.total_applicable * 100 +
      ((((b2.bonuses.map (fun x => x.2)).sum -
        (b2.penalties.map (fun x => x.2)).sum : ℤ)) : ℚ) := by
    push_cast
    ring
  rw [hcast, clamp_pyInt_add_int _ _ hq]
  have hfloor : (100 : ℚ) * b2.total_earned / b2.total_applicable =
      b2.total_earned / b2.total_applicable * 100 := by ring
  rw [hfloor]
  congr 1
  omega

/-- C3 (witness): the amended claim instantiated at `userC3`/`eligC3`,
    where the truncated formula evaluates to the actual final score 97. -/
theorem C3_witness :
    Weights.Nonneg Weights.balanced ∧
    0 < (calculateDetailedScore defaultScoringConfig userC3 eligC3).total_applicable ∧
    (calculateDetailedScore defaultScoringConfig userC3 eligC3).final_score =
      max 0 (min (⌊100 * (calculateDetailedScore defaultScoringConfig userC3 eligC3).total_earned /
          (calculateDetailedScore defaultScoringConfig userC3 eligC3).total_applicable⌋ +
        ((calculateDetailedScore defaultScoringConfig userC3 eligC3).bonuses.map (fun x => x.2)).sum -
        ((calculateDetailedScore defaultScoringConfig userC3 eligC3).penalties.map (fun x => x.2)).sum) 100) :=
  ⟨by norm_num [Weights.Nonneg, Weights.balanced],
   by rw [calcC3_eq, calculateFinal_eval _ (by norm_num) (by norm_num [fieldScoresC3])]; norm_num,
   C3_amended defaultScoringConfig userC3 eligC3
     (by norm_num [defaultScoringConfig, Weights.Nonneg, Weights.balanced])
     (by rw [calcC3_eq, calculateFinal_eval _ (by norm_num) (by norm_num [fieldScoresC3])]; norm_num)⟩


/-! ### C4 -/

/-- The in-range age gradient of `_score_age`: full credit attenuated by
    the normalized distance from the range midpoint, floored at 80%. -/
def inRangeAgeGradient (a mn mx : ℤ) : ℚ :=
  max (8/10) (1 - |(a : ℚ) - ((mn : ℚ) + (mx : ℚ)) / 2| / (((mx : ℚ) - (mn : ℚ)) / 2) * (2/10))

/-- C4 (counterexample): age 15 against range 20–40 is 5 years out of
    range, yet earns gradient 0.2 (earned 3 of 15), not the 0 the claim's
    "reaches 0 at d = 5" asserts. -/
theorem C4_counterexample :
    ageContrib defaultScoringConfig { age := some 15 }
      { min_age := some 20, max_age := some 40 } = ⟨3, 15, 1/5⟩ ∧
    ¬ (ageContrib defaultScoringConfig { age := some 15 }
      { min_age := some 20, max_age := some 40 } : Contrib).earned = 0 := by
  have h : ageContrib defaultScoringConfig { age := some 15 }
      { min_age := some 20, max_age := some 40 } = ⟨3, 15, 1/5⟩ := by
    norm_num [ageContrib, defaultScoringConfig, Weights.balanced, safeInt, reduceCtorEq]
    exact fun h => Option.noConfusion h
  rw [h]
  norm_num

/-- C4 (amended): with gradient scoring on and both bounds set, an
    in-range age earns the full weight attenuated by distance from the
    range midpoint down to a floor of 80%; an age outside the range by
    `d ≤ 5` years earns the linearly decaying gradient `1 - 0.16·d`,
    which is 0.2 — still positive — at `d = 5`; and `d > 5` earns exactly
    0 while keeping the age weight applicable. -/
theorem C4_amended (cfg : ScoringConfig) (u : UserProfile) (e : Eligibility)
    (mn mx : ℤ) (hg : cfg.enableGradient = true)
    (hmn : e.min_age = some mn) (hmx : e.max_age = some mx)
    (ha : 0 < safeInt u.age) :
    (mn ≤ safeInt u.age → safeInt u.age ≤ mx → mn < mx →
      ageContrib cfg u e =
        ⟨cfg.weights.age * inRangeAgeGradient (safeInt u.age) mn mx, cfg.weights.age,
          inRangeAgeGradient (safeInt u.age) mn mx⟩ ∧
      8/10 ≤ inRangeAgeGradient (safeInt u.age) mn mx ∧
      inRangeAgeGradient (safeInt u.age) mn mx ≤ 1) ∧
    (∀ d : ℤ, ((d = mn - safeInt u.age ∧ safeInt u.age < mn) ∨
        (d = safeInt u.age - mx ∧ mx < safeInt u.age ∧ mn ≤ safeInt u.age)) →
      (d ≤ 5 →
        ageContrib cfg u e =
          ⟨cfg.weights.age * (1 - (d : ℚ) * (4/25)), cfg.weights.age, 1 - (d : ℚ) * (4/25)⟩ ∧
        0 < 1 - (d : ℚ) * (4/25)) ∧
      (5 < d → ageContrib cfg u e = ⟨0, cfg.weights.age, 0⟩)) := by
  have hage : ¬ safeInt u.age ≤ 0 := not_le.mpr ha
  constructor
  · intro h1 h2 h3
    have hbelow : decide (safeInt u.age < mn) = false := decide_eq_false (not_lt.mpr h1)
    have habove : decide (mx < safeInt u.age) = false := decide_eq_false (not_lt.mpr h2)
    have hspan : (0 : ℚ) < (mx : ℚ) - (mn : ℚ) := by
      rw [sub_pos]
      exact_mod_cast h3
    refine ⟨?_, le_max_left _ _, ?_⟩
    · simp only [ageContrib, hmn, hmx, hg, hbelow, habove, hage, eq_true hspan,
        inRangeAgeGradient, -reduceIte, if_true, if_false, reduceCtorEq, and_self,
        Option.some.injEq, and_false, false_and, if_neg, ite_true, ite_false]
    · unfold inRangeAgeGradient
      apply max_le
      · norm_num
      · have habs : 0 ≤ |(safeInt u.age : ℚ) - ((mn : ℚ) + (mx : ℚ)) / 2| /
            (((mx : ℚ) - (mn : ℚ)) / 2) * (2/10) := by positivity
        linarith
  · intro d hd
    have hcases : (decide (safeInt u.age < mn) = true ∧ d = mn - safeInt u.age) ∨
        (decide (safeInt u.age < mn) = false ∧ decide (mx < safeInt u.age) = true ∧
          d = safeInt u.age - mx) := by
      rcases hd with ⟨hdef, hlt⟩ | ⟨hdef, hlt, hge⟩
      · exact Or.inl ⟨decide_eq_true hlt, hdef⟩
      · exact Or.inr ⟨decide_eq_false (not_lt.mpr hge), decide_eq_true hlt, hdef⟩
    have hdpos : 1 ≤ d := by
      rcases hd with ⟨hdef, hlt⟩ | ⟨hdef, hlt, _⟩ <;> omega
    constructor
    · intro h5
      have hq5 : ((d : ℤ) : ℚ) ≤ 5 := by exact_mod_cast h5
      have hmax : (0 : ℚ) ⊔ (1 - (d : ℚ) / 5 * (8 / 10)) = 1 - (d : ℚ) * (4/25) := by
        rw [max_eq_right (by linarith)]
        ring
      have hgoal2 : 0 < 1 - (d : ℚ) * (4/25) := by linarith
      refine ⟨?_, hgoal2⟩
      rcases hcases with ⟨hb, hdef⟩ | ⟨hb, hab, hdef⟩
      · simp only [ageContrib, hmn, hmx, hg, hb, hage, -reduceIte,
          if_true, if_false, ite_true, ite_false, Option.getD_some, Bool.true_eq_false,
          false_and, and_false, if_neg, not_false_eq_true, reduceCtorEq, and_self]
        rw [← hdef, if_pos h5, hmax]
      · simp only [ageContrib, hmn, hmx, hg, hb, hab, hage, -reduceIte,
          if_true, if_false, ite_true, ite_false, Option.getD_some, Bool.true_eq_false,
          false_and, and_false, and_true, true_and, if_neg, not_false_eq_true,
          reduceCtorEq, and_self]
        rw [← hdef, if_pos h5, hmax]
    · intro h5
      have hn5 : ¬ (d ≤ 5) := not_le.mpr h5
      rcases hcases with ⟨hb, hdef⟩ | ⟨hb, hab, hdef⟩
      · simp only [ageContrib, hmn, hmx, hg, hb, hage, -reduceIte,
          if_true, if_false, ite_true, ite_false, Option.getD_some, Bool.true_eq_false,
          false_and, and_false, if_neg, not_false_eq_true, reduceCtorEq, and_self]
        rw [← hdef, if_neg hn5]
      · simp only [ageContrib, hmn, hmx, hg, hb, hab, hage, -reduceIte,
          if_true, if_false, ite_true, ite_false, Option.getD_some, Bool.true_eq_false,
          false_and, and_false, and_true, true_and, if_neg, not_false_eq_true,
          reduceCtorEq, and_self]
        rw [← hdef, if_neg hn5]

/-- C4 (witness): the amended claim at age 16 against range 20–40
    (4 years under the minimum): partial credit `1 - 4·0.16 = 0.36` of
    the age weight, strictly positive. -/
theorem C4_witness :
    ageContrib defaultScoringConfig { age := some 16 }
        { min_age := some 20, max_age := some 40 } =
      ⟨defaultScoringConfig.weights.age * (1 - ((4 : ℤ) : ℚ) * (4/25)),
        defaultScoringConfig.weights.age, 1 - ((4 : ℤ) : ℚ) * (4/25)⟩ ∧
    (0 : ℚ) < 1 - ((4 : ℤ) : ℚ) * (4/25) :=
  ((C4_amended defaultScoringConfig { age := some 16 }
      { min_age := some 20, max_age := some 40 } 20 40 rfl rfl rfl
      (by norm_num [safeInt])).2 4
      (Or.inl ⟨by norm_num [safeInt], by norm_num [safeInt]⟩)).1 (by norm_num)


/-! ### C6 -/

/-- Modelled from the claim's words: income at or below half the ceiling
    earns full credit 1.0, then 0.95 up to 80% of the ceiling, then 0.85
    up to the ceiling, then 0.3 up to a 10% overshoot, then 0. -/
def specIncomeBand (income mi : ℤ) : ℚ :=
  if (income : ℚ) ≤ 1/2 * (mi : ℚ) then 1
  else if (income : ℚ) ≤ 8/10 * (mi : ℚ) then 95/100
  else if (income : ℚ) ≤ (mi : ℚ) then 85/100
  else if (income : ℚ) ≤ 11/10 * (mi : ℚ) then 3/10
  else 0

theorem incomeContrib_gradient_band (cfg : ScoringConfig) (u : UserProfile) (e : Eligibility)
    (mi : ℤ) (hg : cfg.enableGradient = true) (hmi : 0 < mi)
    (he : e.max_income = some mi) (hi : 0 < safeInt u.annual_income) :
    (incomeContrib cfg u e).gradient = specIncomeBand (safeInt u.annual_income) mi := by
  have hm : (0:ℚ) < (mi:ℚ) := by exact_mod_cast hmi
  have hnle : ¬ safeInt u.annual_income ≤ 0 := not_le.mpr hi
  have hov : (((safeInt u.annual_income : ℚ) - (mi:ℚ)) / (mi:ℚ) ≤ 1/10) ↔
      ((safeInt u.annual_income : ℚ) ≤ 11/10 * (mi:ℚ)) := by
    rw [div_le_iff hm]
    constructor <;> intro <;> linarith
  rcases le_or_lt (safeInt u.annual_income) mi with hle | hgt
  · have hleq : ((safeInt u.annual_income : ℚ) ≤ (mi:ℚ)) := by exact_mod_cast hle
    simp only [incomeContrib, he, specIncomeBand, eq_false hnle, eq_true hle, eq_true hleq,
      hg, eq_true hmi, eq_self_iff_true, true_and, if_true, if_false, ite_true, ite_false,
      -reduceIte, apply_ite (fun c : Contrib => c.gradient), div_le_iff hm]
  · have hq : (mi:ℚ) < (safeInt u.annual_income : ℚ) := by exact_mod_cast hgt
    have hc1 : ¬ ((safeInt u.annual_income : ℚ) ≤ 1/2 * (mi:ℚ)) := by
      intro habs
      linarith
    have hc2 : ¬ ((safeInt u.annual_income : ℚ) ≤ 8/10 * (mi:ℚ)) := by
      intro habs
      linarith
    simp only [incomeContrib, he, specIncomeBand, eq_false hnle, eq_false (not_le.mpr hgt),
      eq_false (not_le.mpr hq), eq_false hc1, eq_false hc2, hg, eq_true hmi,
      eq_self_iff_true, true_and, if_true, if_false, ite_true, ite_false,
      -reduceIte, apply_ite (fun c : Contrib => c.gradient), hov]

theorem specIncomeBand_antitone (mi : ℤ) (hmi : 0 < mi) (i1 i2 : ℤ) (h12 : i1 ≤ i2) :
    specIncomeBand i2 mi ≤ specIncomeBand i1 mi := by
  have h12q : ((i1:ℤ):ℚ) ≤ ((i2:ℤ):ℚ) := by exact_mod_cast h12
  unfold specIncomeBand
  split_ifs <;> try norm_num
  all_goals linarith

/-- C6 (counterexample): with ceiling M = 100000, an annual income of 0
    (≤ 0.5·M, so the claim's band assigns full credit 1.0) is treated as
    "income not provided" and earns gradient 0; income 1 earns 1.0, so the
    credit is not non-increasing in income at 0. -/
theorem C6_counterexample :
    (incomeContrib defaultScoringConfig { annual_income := some 0 }
      { max_income := some 100000 }).gradient = 0 ∧
    specIncomeBand 0 100000 = 1 ∧
    (incomeContrib defaultScoringConfig { annual_income := some 1 }
      { max_income := some 100000 }).gradient = 1 ∧
    (incomeContrib defaultScoringConfig { annual_income := some 0 }
        { max_income := some 100000 }).gradient <
      (incomeContrib defaultScoringConfig { annual_income := some 1 }
        { max_income := some 100000 }).gradient ∧
    ¬ (incomeContrib defaultScoringConfig { annual_income := some 0 }
        { max_income := some 100000 }).gradient = specIncomeBand 0 100000 := by
  have h0 : (incomeContrib defaultScoringConfig { annual_income := some 0 }
      { max_income := some 100000 }).gradient = 0 := by
    norm_num [incomeContrib, defaultScoringConfig, Weights.balanced, safeInt]
  have h1 : (incomeContrib defaultScoringConfig { annual_income := some 1 }
      { max_income := some 100000 }).gradient = 1 := by
    norm_num [incomeContrib, defaultScoringConfig, Weights.balanced, safeInt]
  have hband : specIncomeBand 0 100000 = 1 := by
    norm_num [specIncomeBand]
  refine ⟨h0, hband, h1, ?_, ?_⟩
  · rw [h0, h1]
    norm_num
  · rw [h0, hband]
    norm_num

/-- C6 (amended): for positive incomes the income gradient equals exactly
    the claimed bands (1.0 up to 0.5·M, 0.95 up to 0.8·M, 0.85 up to M,
    0.3 up to 1.1·M, 0 beyond), and over positive incomes it is
    non-increasing; income ≤ 0 is instead the "not provided" case and
    earns gradient 0. -/
theorem C6_amended (cfg : ScoringConfig) (u : UserProfile) (e : Eligibility)
    (mi : ℤ) (hg : cfg.enableGradient = true) (hmi : 0 < mi)
    (he : e.max_income = some mi) (hi : 0 < safeInt u.annual_income) :
    (incomeContrib cfg u e).gradient = specIncomeBand (safeInt u.annual_income) mi ∧
    (∀ i1 i2 : ℤ, 0 < i1 → i1 ≤ i2 →
      (incomeContrib cfg { u with annual_income := some i2 } e).gradient ≤
      (incomeContrib cfg { u with annual_income := some i1 } e).gradient) := by
  constructor
  · exact incomeContrib_gradient_band cfg u e mi hg hmi he hi
  · intro i1 i2 h1 h12
    have e1 : (incomeContrib cfg { u with annual_income := some i1 } e).gradient =
        specIncomeBand i1 mi :=
      incomeContrib_gradient_band cfg _ e mi hg hmi he (by simpa [safeInt] using h1)
    have e2 : (incomeContrib cfg { u with annual_income := some i2 } e).gradient =
        specIncomeBand i2 mi :=
      incomeContrib_gradient_band cfg _ e mi hg hmi he
        (by simp only [safeInt, Option.getD_some]; omega)
    rw [e1, e2]
    exact specIncomeBand_antitone mi hmi i1 i2 h12

/-- C6 (witness): the amended claim at M = 100000: income 70000 (70% of
    the ceiling) earns the 0.95 band, and raising income 70000 → 95000
    does not increase the gradient. -/
theorem C6_witness :
    (incomeContrib defaultScoringConfig { annual_income := some 70000 }
      { max_income := some 100000 }).gradient = specIncomeBand 70000 100000 ∧
    (incomeContrib defaultScoringConfig
        { annual_income := some 95000 } { max_income := some 100000 }).gradient ≤
      (incomeContrib defaultScoringConfig
        { annual_income := some 70000 } { max_income := some 100000 }).gradient := by
  have h := C6_amended defaultScoringConfig { annual_income := some 70000 }
    { max_income := some 100000 } 100000 rfl (by norm_num) rfl
    (by norm_num [safeInt])
  exact ⟨h.1, h.2 70000 95000 (by norm_num) (by norm_num)⟩


/-! ### Shared facts about the `find_matches` pipeline -/

theorem scoreCandidate_some (u : UserProfile) (ms : ℤ) (s : Scheme) (r : MatchOutput)
    (h : scoreCandidate u ms s = some r) :
    r.scheme = s ∧ ms ≤ r.match_score ∧ (passHardFilters u s.eligibility).1 = true := by
  simp only [scoreCandidate] at h
  split_ifs at h with h1 h2
  all_goals try exact Option.noConfusion h
  injection h with h3
  subst h3
  exact ⟨rfl, not_lt.mp h2, h1⟩

theorem findMatchesCore_mem (st : EngineState) (u : UserProfile) (maxEff minEff : ℤ)
    (cf tf : Option String) (dbg : Bool)
    (hmiss : (assocLookup st.cache (buildCacheKey u cf tf)).getD [] = [])
    (r : MatchOutput) (hr : r ∈ (findMatchesCore st u maxEff minEff cf tf dbg).1) :
    minEff ≤ r.match_score ∧ (passHardFilters u r.scheme.eligibility).1 = true ∧
      r.scheme ∈ preFilter st.schemes cf tf := by
  simp only [findMatchesCore, hmiss] at hr
  rw [if_neg (by simp)] at hr
  have hr2 : r ∈ (preFilter st.schemes cf tf).filterMap (scoreCandidate u minEff) := by
    have h1 : r ∈ ((preFilter st.schemes cf tf).filterMap
        (scoreCandidate u minEff)).mergeSort matchSortLE := by
      unfold pySlice at hr
      split_ifs at hr
      · exact List.take_subset _ _ hr
      · exact List.take_subset _ _ hr
    exact (List.mergeSort_perm _ _).mem_iff.mp h1
  obtain ⟨s, hs, hsc⟩ := List.mem_filterMap.mp hr2
  obtain ⟨he, hms, hpf⟩ := scoreCandidate_some u minEff s r hsc
  rw [he]
  exact ⟨hms, hpf, hs⟩


/-! ### C5 concrete two-call trace -/

/-- A scheme restricted to the `sc` category (open states, no other
    criteria, no url or description). -/
def eligC5 : Eligibility := { category := some ["sc"] }

def schemeC5 : Scheme :=
  { id := some "s1"
    name := some "S One"
    eligibility := eligC5 }

/-- A `general`-category profile: earns 20 of 35 applicable points
    (base 57) and loses 5 adjustment points for the missing url and
    description, scoring 52. -/
def userC5 : UserProfile :=
  { age := some 30
    state := some "Delhi"
    category := some "general"
    occupation := some "clerk" }

def outC5 : MatchOutput := ⟨schemeC5, 52, Tier.moderate⟩

def fieldScoresC5 : List (String × FieldScore) :=
  [("age", ⟨0, 0, 1⟩), ("gender", ⟨0, 0, 1⟩), ("state", ⟨20, 20, 1⟩),
   ("category", ⟨0, 15, 0⟩), ("income", ⟨0, 0, 1⟩), ("occupation", ⟨0, 0, 1⟩),
   ("special_flags", ⟨0, 0, 1⟩)]

theorem calcC5_eq :
    calculateDetailedScore defaultScoringConfig userC5 eligC5 =
      (Breakdown.mk fieldScoresC5 20 35 [] [] 0 0).calculateFinal := by
  unfold calculateDetailedScore
  have hst : stripStr (lowerStr "general") = "general" := by decide
  have hlg : lowerStr "general" = "general" := by decide
  have hmap : List.map lowerStr ["sc"] = ["sc"] := by decide
  have hmem : ¬ ("general" ∈ (["sc"] : List String)) := by decide
  have hrel : relatedCategories "general" = [] := by decide
  have hne : ¬ ("general" = "") := by decide
  have hns : ¬ ("general" = "sc") := by decide
  have hle : lowerStr "" = "" := by decide
  have hfem : ¬ ("" = "female") := by decide
  have h1 : scoreFields defaultScoringConfig userC5 eligC5 =
      Breakdown.mk fieldScoresC5 20 35 [] [] 0 0 := by
    norm_num [scoreFields, Breakdown.addField, emptyBreakdown, ageContrib, genderContrib,
      stateContrib, categoryContrib, incomeContrib, occupationContrib, specialFlagsContrib,
      checkCategoryRelation, hst, hmap, hmem, hrel, hne, hns,
      defaultScoringConfig, Weights.balanced, userC5, eligC5, safeInt, round2, roundHalfEven,
      List.foldl, fieldScoresC5]
  rw [h1]
  have hpk : providedKeyFields userC5 = 4 := by decide
  simp only [userC5] at hpk
  norm_num [applyBonuses, applyPenalties, Breakdown.addBonus, Breakdown.addPenalty,
    hpk, hlg, hmap, hmem, hne, hns, userC5, eligC5, safeInt, List.filter, fieldScoresC5]

theorem calcScoreC5 : calculateScore defaultScoringConfig userC5 eligC5 = 57 := by
  unfold calculateScore
  rw [calcC5_eq, calculateFinal_eval _ (by norm_num) (by norm_num [fieldScoresC5])]
  norm_num [pyInt]

theorem scoreCandidateC5 : scoreCandidate userC5 30 schemeC5 = some outC5 := by
  have hpf : passHardFilters userC5 eligC5 = (true, none) := by decide
  have hlg : lowerStr "general" = "general" := by decide
  have hmap : List.map lowerStr ["sc"] = ["sc"] := by decide
  have hmem : ¬ ("general" ∈ (["sc"] : List String)) := by decide
  have hns : ¬ ("general" = "sc") := by decide
  have hle : lowerStr "" = "" := by decide
  have hfem : ¬ ("" = "female") := by decide
  have hadj : applyAdjustments 57 userC5 schemeC5 eligC5 = 52 := by
    norm_num [applyAdjustments, userC5, schemeC5, eligC5, safeInt, hlg, hmap, hmem, hns,
      hle, hfem]
  simp only [scoreCandidate, show schemeC5.eligibility = eligC5 from rfl, hpf, calcScoreC5,
    hadj]
  norm_num [tierOfScore, outC5]


def stC5 : EngineState :=
  ⟨[schemeC5], [(buildCacheKey userC5 none none, [outC5])]⟩

theorem findMatchesC5_call1 :
    findMatches (initEngine [schemeC5]) userC5 none none none none false =
      ([outC5], stC5) := by
  simp only [findMatches, findMatchesCore, initEngine, pyOrInt, assocLookup, List.find?,
    Option.map, Option.getD, preFilter, List.filterMap, scoreCandidateC5, assocUpdate,
    List.any, stC5]
  norm_num [pySlice, List.mergeSort, List.take]

theorem findMatchesC5_call2 :
    findMatches stC5 userC5 none (some 80) none none false = ([outC5], stC5) := by
  simp only [findMatches, findMatchesCore, stC5, assocLookup, List.find?, Option.map,
    Option.getD, pyOrInt]
  norm_num [pySlice, List.take]


/-- C5 (counterexample): the result cache is keyed without `min_score`,
    so a second call with `min_score=80` hits the cache entry written by a
    default-threshold call and returns a match scoring only 52, below the
    80 in effect for that call. -/
theorem C5_counterexample :
    pyOrInt (some 80) 30 = 80 ∧
    (findMatches ((findMatches (initEngine [schemeC5]) userC5 none none none none
          false).2) userC5 none (some 80) none none false).1 = [outC5] ∧
    outC5.match_score = 52 ∧ ¬ ((80 : ℤ) ≤ 52) := by
  refine ⟨rfl, ?_, rfl, by norm_num⟩
  simp only [findMatchesC5_call1, findMatchesC5_call2]

/-- C5 (amended): the minimum-score guarantee holds for every call that
    misses the result cache; a call that hits a cached entry replays the
    threshold of the call that wrote it, not its own. -/
theorem C5_amended (st : EngineState) (u : UserProfile) (maxResults minScore : Option ℤ)
    (cf tf : Option String) (dbg : Bool)
    (hmiss : (assocLookup st.cache (buildCacheKey u cf tf)).getD [] = []) :
    ∀ r ∈ (findMatches st u maxResults minScore cf tf dbg).1,
      pyOrInt minScore 30 ≤ r.match_score := by
  intro r hr
  exact (findMatchesCore_mem st u (min (pyOrInt maxResults 20) 100) (pyOrInt minScore 30)
    cf tf dbg hmiss r hr).1

/-- C5 (witness): on a fresh engine the guarantee holds for the entry the
    default-threshold call returns. -/
theorem C5_witness : pyOrInt none 30 ≤ outC5.match_score :=
  C5_amended (initEngine [schemeC5]) userC5 none none none none false rfl outC5
    (by simp only [findMatchesC5_call1]; exact List.mem_singleton.mpr rfl)

/-! ### C7 -/

theorem passHardFilters_incomeHigh (u : UserProfile) (e : Eligibility) (mi : ℤ)
    (hmi : e.max_income = some mi) (h0 : 0 ≤ mi) (hex : mi < safeInt u.annual_income) :
    (passHardFilters u e).1 = false := by
  simp only [passHardFilters, hmi]
  split_ifs with h1 h2 h3 h4 h5 h6 <;> try rfl
  exfalso
  simp only [decide_eq_true_eq] at h5
  exact h5 ⟨lt_of_le_of_lt h0 hex, hex⟩

/-- C7: a profile whose income exceeds a scheme's (nonnegative)
    `max_income` ceiling can never produce a match for that scheme: the
    candidate pipeline returns nothing for it at every threshold, and no
    cache-missing `find_matches` call returns it. -/
theorem C7_theorem (u : UserProfile) (s : Scheme) (mi : ℤ)
    (hmi : s.eligibility.max_income = some mi) (h0 : 0 ≤ mi)
    (hex : mi < safeInt u.annual_income) :
    (∀ ms : ℤ, scoreCandidate u ms s = none) ∧
    ∀ (st : EngineState) (mr msArg : Option ℤ) (cf tf : Option String) (dbg : Bool),
      (assocLookup st.cache (buildCacheKey u cf tf)).getD [] = [] →
      ∀ r ∈ (findMatches st u mr msArg cf tf dbg).1, r.scheme ≠ s := by
  have hpf := passHardFilters_incomeHigh u s.eligibility mi hmi h0 hex
  constructor
  · intro ms
    simp [scoreCandidate, hpf]
  · intro st mr msArg cf tf dbg hmiss r hr heq
    have h2 := (findMatchesCore_mem st u (min (pyOrInt mr 20) 100) (pyOrInt msArg 30)
      cf tf dbg hmiss r hr).2.1
    rw [heq, hpf] at h2
    exact Bool.noConfusion h2

/-- Income 150000 against a 100000 ceiling. -/
def userC7 : UserProfile := { annual_income := some 150000 }

def schemeC7 : Scheme := { id := some "s7", eligibility := { max_income := some 100000 } }

/-- C7 (witness): the over-ceiling profile is filtered out of the
    candidate pipeline even at threshold 0. -/
theorem C7_witness : scoreCandidate userC7 0 schemeC7 = none :=
  (C7_theorem userC7 schemeC7 100000 rfl (by decide) (by decide)).1 0

/-! ### C9 -/

/-- C9: an unknown scheme id yields the explicit not-found value from all
    three lookup entry points (`None`, a `found: False` entry, the
    `error`/`eligible: False` dict) rather than an exception. -/
theorem C9_theorem (st : EngineState) (u : UserProfile) (sid : String) (ids : List String)
    (h : ∀ s ∈ st.schemes, ¬ s.id = some sid) :
    getSchemeDetail st sid = none ∧
    (sid ∈ ids → CompareEntry.notFound sid ∈ compareSchemes st u ids) ∧
    checkEligibility st u sid = CheckEligResult.notFound := by
  have hfind : findScheme st.schemes sid = none := by
    apply List.find?_eq_none.mpr
    intro s hs
    simp [h s hs]
  refine ⟨hfind, ?_, ?_⟩
  · intro hid
    simp only [compareSchemes]
    apply (List.mergeSort_perm _ _).mem_iff.mpr
    apply List.mem_map.mpr
    exact ⟨sid, hid, by rw [hfind]⟩
  · simp only [checkEligibility, hfind]

def schemeC9 : Scheme := { id := some "a" }

/-- C9 (witness): id `b` against an engine that only knows scheme `a`. -/
theorem C9_witness :
    getSchemeDetail (initEngine [schemeC9]) "b" = none ∧
    CompareEntry.notFound "b" ∈ compareSchemes (initEngine [schemeC9]) emptyUser ["b"] ∧
    checkEligibility (initEngine [schemeC9]) emptyUser "b" = CheckEligResult.notFound :=
  ⟨(C9_theorem (initEngine [schemeC9]) emptyUser "b" ["b"] (by decide)).1,
   (C9_theorem (initEngine [schemeC9]) emptyUser "b" ["b"] (by decide)).2.1
     (List.mem_singleton.mpr rfl),
   (C9_theorem (initEngine [schemeC9]) emptyUser "b" ["b"] (by decide)).2.2⟩

/-! ### C10 -/

/-- C10: passing `max_results=0` or `min_score=0` is indistinguishable
    from omitting the argument: `x or default` replaces the falsy 0 by the
    defaults 20 and 30, so `min_score=0` cannot disable the threshold and
    `max_results=0` does not request an empty list. -/
theorem C10_theorem (st : EngineState) (u : UserProfile) (mr ms : Option ℤ)
    (cf tf : Option String) (dbg : Bool) :
    findMatches st u (some 0) ms cf tf dbg = findMatches st u none ms cf tf dbg ∧
    findMatches st u mr (some 0) cf tf dbg = findMatches st u mr none cf tf dbg ∧
    pyOrInt (some 0) 20 = 20 ∧ pyOrInt (some 0) 30 = 30 ∧
    min (pyOrInt (some 0) 20) 100 = 20 := by
  refine ⟨rfl, rfl, rfl, rfl, by norm_num [pyOrInt]⟩

end Govt
